import Mathlib

/-!
A shallow embedding of the procedural house-layout generator
(`HouseGenerator` in `src/services/houseGenerator.ts`) together with proofs
of its specification properties.

JavaScript numbers are modelled as exact rationals (`ℚ`); the handful of
numeric literals appearing in the source (0.8, 1.5, 2.5, …) are taken at
their decimal value.  `Math.PI` is modelled by the exact rational value of
the IEEE-754 double that JavaScript's `Math.PI` denotes.  Strings are
manipulated through their character lists.
-/

/-! ## Data model (`src/types/house.ts`) -/

inductive HouseType
  | single
  | double
deriving DecidableEq, Repr

inductive LocationType
  | city
  | village
deriving DecidableEq, Repr

inductive Style
  | modern
  | traditional
deriving DecidableEq, Repr

inductive RoomType
  | bedroom
  | bathroom
  | kitchen
  | living
  | dining
  | hallway
deriving DecidableEq, Repr

inductive FurnitureType
  | bed
  | sofa
  | table
  | chair
  | cabinet
  | appliance
deriving DecidableEq, Repr

/-- A 3-component vector of JS numbers (used for positions and look-at targets). -/
structure Vec3 where
  x : ℚ
  y : ℚ
  z : ℚ
deriving DecidableEq, Repr

/-- Width / length / height triple. -/
structure Dims3 where
  width : ℚ
  length : ℚ
  height : ℚ
deriving DecidableEq, Repr

/-- Result of `parsePlotSize`. -/
structure PlotSize where
  width : ℚ
  length : ℚ
deriving DecidableEq, Repr

structure HouseFormData where
  plotSize : String
  houseType : HouseType
  bedrooms : ℕ
  bathrooms : ℕ
  kitchens : ℕ
  locationType : LocationType
  extraNotes : String
deriving DecidableEq, Repr

structure Furniture where
  id : String
  name : String
  type : FurnitureType
  position : Vec3
  rotation : ℚ
  dimensions : Dims3
deriving DecidableEq, Repr

structure Room where
  id : String
  name : String
  type : RoomType
  position : Vec3
  dimensions : Dims3
  furniture : List Furniture
deriving DecidableEq, Repr

structure TourWaypoint where
  position : Vec3
  lookAt : Vec3
  duration : ℚ
  roomName : String
deriving DecidableEq, Repr

structure HouseLayout where
  width : ℚ
  length : ℚ
  height : ℚ
  floors : ℕ
  rooms : List Room
  style : Style
deriving DecidableEq, Repr

/-! ## JavaScript primitives used by the generator -/

/-- The exact rational value of the IEEE-754 double `Math.PI`. -/
def jsPI : ℚ := 884279719003555 / 281474976710656

/-- Modelled from the ECMAScript `\s` regex character class (whitespace and
line terminators), as used by `replace(/\s/g, '')`. -/
def jsIsSpace (c : Char) : Bool :=
  c == ' ' || c == '\t' || c == '\n' || c == '\r' || c == '\x0b' || c == '\x0c' ||
  c == '\u00A0' || c == '\u1680' || (0x2000 ≤ c.toNat && c.toNat ≤ 0x200A) ||
  c == '\u2028' || c == '\u2029' || c == '\u202F' || c == '\u205F' ||
  c == '\u3000' || c == '\uFEFF'

/-- Longest prefix of decimal digits together with the remaining characters. -/
def takeDigits : List Char → List Char × List Char
  | [] => ([], [])
  | c :: cs =>
    if c.isDigit then
      let p := takeDigits cs
      (c :: p.1, p.2)
    else ([], c :: cs)

/-- Value of a list of decimal digit characters, most significant first. -/
def digitsToNat (ds : List Char) : ℕ :=
  ds.foldl (fun a c => 10 * a + (c.toNat - 48)) 0

/-- Exponent-part factor of a JS `StrDecimalLiteral`: an optional
`e`/`E` followed by an optionally signed digit string.  An ill-formed
exponent is ignored (factor 1), as in `parseFloat`. -/
def expFactor (s : List Char) : ℚ :=
  match s with
  | 'e' :: rest
  | 'E' :: rest =>
    match rest with
    | '-' :: t => if (takeDigits t).1 = [] then 1 else 1 / 10 ^ digitsToNat (takeDigits t).1
    | '+' :: t => if (takeDigits t).1 = [] then 1 else 10 ^ digitsToNat (takeDigits t).1
    | t => if (takeDigits t).1 = [] then 1 else 10 ^ digitsToNat (takeDigits t).1
  | _ => 1

/-- Modelled from the ECMAScript built-in `parseFloat`: parse the longest
prefix that is a valid signed decimal literal; `none` models `NaN`.  The
`Infinity` keyword is not modelled: the generator only applies `parseFloat`
to lower-cased strings, which never match the case-sensitive `Infinity`. -/
def jsParseFloat (s : List Char) : Option ℚ :=
  let signAndRest : ℚ × List Char :=
    match s with
    | '-' :: t => (-1, t)
    | '+' :: t => (1, t)
    | _ => (1, s)
  let sign := signAndRest.1
  let s1 := signAndRest.2
  match takeDigits s1 with
  | ([], _) =>
    match s1 with
    | '.' :: t =>
      match takeDigits t with
      | ([], _) => none
      | (fp, s3) => some (sign * ((digitsToNat fp : ℚ) / 10 ^ fp.length) * expFactor s3)
    | _ => none
  | (ip, s2) =>
    match s2 with
    | '.' :: t =>
      let p := takeDigits t
      some (sign * ((digitsToNat ip : ℚ) + (digitsToNat p.1 : ℚ) / 10 ^ p.1.length) *
        expFactor p.2)
    | _ => some (sign * (digitsToNat ip : ℚ) * expFactor s2)

/-- Modelled from the ECMAScript `String.prototype.split` with separator
`"x"`, on character lists. -/
def splitOnX : List Char → List (List Char)
  | [] => [[]]
  | c :: cs =>
    if c = 'x' then [] :: splitOnX cs
    else
      match splitOnX cs with
      | [] => [[c]]
      | p :: ps => (c :: p) :: ps

/-- Models the JS expression `v || d` where `v` is the possibly-undefined
(outer `Option`), possibly-`NaN` (inner `Option`) result of indexing the
`parseFloat`-mapped split: `undefined`, `NaN` and `0` are falsy and yield
the default. -/
def jsOrDefault (v : Option (Option ℚ)) (d : ℚ) : ℚ :=
  match v with
  | some (some q) => if q = 0 then d else q
  | _ => d

/-! ## The generator (`src/services/houseGenerator.ts`) -/

namespace HouseGenerator

/-- `ROOM_HEIGHT` — standard room height in meters. -/
def ROOM_HEIGHT : ℚ := 3

/-- The `size` local of `parsePlotSize`:
`plotSize.toLowerCase().replace(/\s/g, '')`.  `toLowerCase` is modelled on
ASCII letters (the only case mapping the generator's claims depend on is
`'X' ↦ 'x'`). -/
def normalizeSize (plotSize : String) : List Char :=
  (plotSize.data.map Char.toLower).filter (fun c => !(jsIsSpace c))

/-- `HouseGenerator.parsePlotSize` (lines 134–151). -/
def parsePlotSize (plotSize : String) : PlotSize :=
  let size := normalizeSize plotSize
  if size.contains 'x' then
    let parts := (splitOnX size).map jsParseFloat
    { width := jsOrDefault parts[0]? 20, length := jsOrDefault parts[1]? 30 }
  else
    match jsParseFloat size with
    | some numericSize => { width := numericSize, length := numericSize }
    | none => { width := 20, length := 30 }

/-- `HouseGenerator.calculateHouseDimensions` (lines 156–173). -/
def calculateHouseDimensions (plotSize : PlotSize) (formData : HouseFormData) : Dims3 :=
  let houseWidth := min (plotSize.width * 0.8) 25
  let houseLength := min (plotSize.length * 0.8) 35
  let floorHeight := ROOM_HEIGHT
  let totalHeight := if formData.houseType = HouseType.single then floorHeight else floorHeight * 2
  { width := houseWidth, length := houseLength, height := totalHeight }

/-- Bounded search for the least `k` with `n ≤ k * k`. -/
def ceilSqrtLoop (n : ℕ) : ℕ → ℕ → ℕ
  | 0, k => k
  | fuel + 1, k => if n ≤ k * k then k else ceilSqrtLoop n fuel (k + 1)

/-- `Math.ceil(Math.sqrt n)` on a natural number: the least `k` with
`n ≤ k * k` (the fuel `n` suffices since `n ≤ n * n`). -/
def natCeilSqrt (n : ℕ) : ℕ := ceilSqrtLoop n n 0

/-- `Math.max(2, Math.ceil(Math.sqrt(formData.bedrooms + 2)))`, the number of
room units per axis in `generateRooms`. -/
def roomUnits (formData : HouseFormData) : ℕ :=
  max 2 (natCeilSqrt (formData.bedrooms + 2))

/-- The `roomWidth` local of `generateRooms`. -/
def roomUnitW (formData : HouseFormData) (dimensions : Dims3) : ℚ :=
  dimensions.width / (roomUnits formData : ℚ)

/-- The `roomLength` local of `generateRooms`. -/
def roomUnitL (formData : HouseFormData) (dimensions : Dims3) : ℚ :=
  dimensions.length / (roomUnits formData : ℚ)

/-- The kitchen loop of `generateRooms` (lines 200–210): `i` is the 1-based
index of the next kitchen, `n` the number still to place, `x`/`z` the
cursor.  Returns the placed rooms and the final `currentX`. -/
def kitchensLoop (rw rl : ℚ) (z : ℚ) : ℕ → ℕ → ℚ → List Room × ℚ
  | _, 0, x => ([], x)
  | i, n + 1, x =>
    let room : Room :=
      { id := "kitchen-" ++ Nat.repr i, name := "Kitchen " ++ Nat.repr i,
        type := RoomType.kitchen, position := ⟨x, 0, z⟩,
        dimensions := ⟨rw, rl, ROOM_HEIGHT⟩, furniture := [] }
    let rest := kitchensLoop rw rl z (i + 1) n (x + rw)
    (room :: rest.1, rest.2)

/-- The bedroom loop of `generateRooms` (lines 230–246), with the
row-wrapping check before each placement.  Returns the placed rooms and the
final `(currentX, currentZ)` cursor. -/
def bedroomsLoop (rw rl w : ℚ) : ℕ → ℕ → ℚ → ℚ → List Room × ℚ × ℚ
  | _, 0, x, z => ([], x, z)
  | i, n + 1, x, z =>
    let c : ℚ × ℚ := if x + rw > w then (0, z + rl) else (x, z)
    let room : Room :=
      { id := "bedroom-" ++ Nat.repr i, name := "Bedroom " ++ Nat.repr i,
        type := RoomType.bedroom, position := ⟨c.1, 0, c.2⟩,
        dimensions := ⟨rw, rl, ROOM_HEIGHT⟩, furniture := [] }
    let rest := bedroomsLoop rw rl w (i + 1) n (c.1 + rw) c.2
    (room :: rest.1, rest.2)

/-- The bathroom loop of `generateRooms` (lines 249–265): same streaming
cursor as the bedroom loop, rooms sized at 80% of the unit, cursor still
advanced by the full unit width. -/
def bathroomsLoop (rw rl w : ℚ) : ℕ → ℕ → ℚ → ℚ → List Room × ℚ × ℚ
  | _, 0, x, z => ([], x, z)
  | i, n + 1, x, z =>
    let c : ℚ × ℚ := if x + rw > w then (0, z + rl) else (x, z)
    let room : Room :=
      { id := "bathroom-" ++ Nat.repr i, name := "Bathroom " ++ Nat.repr i,
        type := RoomType.bathroom, position := ⟨c.1, 0, c.2⟩,
        dimensions := ⟨rw * 0.8, rl * 0.8, ROOM_HEIGHT⟩, furniture := [] }
    let rest := bathroomsLoop rw rl w (i + 1) n (c.1 + rw) c.2
    (room :: rest.1, rest.2)

/-- `HouseGenerator.generateRooms` (lines 178–278). -/
def generateRooms (formData : HouseFormData) (dimensions : Dims3) : List Room :=
  let roomWidth := roomUnitW formData dimensions
  let roomLength := roomUnitL formData dimensions
  let living : Room :=
    { id := "living-1", name := "Living Room", type := RoomType.living,
      position := ⟨0, 0, 0⟩,
      dimensions := ⟨roomWidth * 1.5, roomLength * 1.5, ROOM_HEIGHT⟩, furniture := [] }
  let afterLiving := roomWidth * 1.5
  let kitchens := kitchensLoop roomWidth roomLength 0 1 formData.kitchens afterLiving
  let dining : List Room :=
    if kitchens.2 + roomWidth ≤ dimensions.width then
      [{ id := "dining-1", name := "Dining Room", type := RoomType.dining,
         position := ⟨kitchens.2, 0, 0⟩,
         dimensions := ⟨roomWidth, roomLength, ROOM_HEIGHT⟩, furniture := [] }]
    else []
  let bedrooms :=
    bedroomsLoop roomWidth roomLength dimensions.width 1 formData.bedrooms 0 (roomLength * 1.5)
  let bathrooms :=
    bathroomsLoop roomWidth roomLength dimensions.width 1 formData.bathrooms
      bedrooms.2.1 bedrooms.2.2
  let hallway : Room :=
    { id := "hallway-1", name := "Hallway", type := RoomType.hallway,
      position := ⟨0, 0, -2⟩,
      dimensions := ⟨dimensions.width, 2, ROOM_HEIGHT⟩, furniture := [] }
  living :: (kitchens.1 ++ dining ++ bedrooms.1 ++ bathrooms.1 ++ [hallway])

/-- The per-category furniture template of `addFurniture` (the `switch` on
`room.type`, lines 287–472). -/
def furnitureFor (room : Room) : List Furniture :=
  match room.type with
  | RoomType.living =>
    [ { id := "sofa-1", name := "Sofa", type := FurnitureType.sofa,
        position := ⟨room.dimensions.width * 0.2, 0, room.dimensions.length * 0.3⟩,
        rotation := 0, dimensions := ⟨2.5, 1, 0.8⟩ },
      { id := "coffee-table-1", name := "Coffee Table", type := FurnitureType.table,
        position := ⟨room.dimensions.width * 0.5, 0, room.dimensions.length * 0.5⟩,
        rotation := 0, dimensions := ⟨1.2, 0.8, 0.5⟩ },
      { id := "tv-cabinet-1", name := "TV Cabinet", type := FurnitureType.cabinet,
        position := ⟨room.dimensions.width * 0.8, 0, room.dimensions.length * 0.2⟩,
        rotation := 0, dimensions := ⟨2, 0.5, 0.6⟩ },
      { id := "armchair-1", name := "Armchair", type := FurnitureType.chair,
        position := ⟨room.dimensions.width * 0.7, 0, room.dimensions.length * 0.7⟩,
        rotation := jsPI / 4, dimensions := ⟨0.8, 0.8, 0.9⟩ },
      { id := "side-table-1", name := "Side Table", type := FurnitureType.table,
        position := ⟨room.dimensions.width * 0.85, 0, room.dimensions.length * 0.75⟩,
        rotation := 0, dimensions := ⟨0.5, 0.5, 0.6⟩ } ]
  | RoomType.bedroom =>
    [ { id := "bed-" ++ room.id, name := "Bed", type := FurnitureType.bed,
        position := ⟨room.dimensions.width * 0.3, 0, room.dimensions.length * 0.4⟩,
        rotation := 0, dimensions := ⟨1.6, 2, 0.6⟩ },
      { id := "wardrobe-" ++ room.id, name := "Wardrobe", type := FurnitureType.cabinet,
        position := ⟨room.dimensions.width * 0.1, 0, room.dimensions.length * 0.1⟩,
        rotation := 0, dimensions := ⟨1.5, 0.6, 2.2⟩ },
      { id := "nightstand-" ++ room.id, name := "Nightstand", type := FurnitureType.table,
        position := ⟨room.dimensions.width * 0.6, 0, room.dimensions.length * 0.3⟩,
        rotation := 0, dimensions := ⟨0.5, 0.4, 0.7⟩ },
      { id := "dresser-" ++ room.id, name := "Dresser", type := FurnitureType.cabinet,
        position := ⟨room.dimensions.width * 0.8, 0, room.dimensions.length * 0.7⟩,
        rotation := jsPI / 2, dimensions := ⟨1.2, 0.5, 1.0⟩ } ]
  | RoomType.kitchen =>
    [ { id := "counter-" ++ room.id, name := "Kitchen Counter", type := FurnitureType.cabinet,
        position := ⟨room.dimensions.width * 0.1, 0, room.dimensions.length * 0.2⟩,
        rotation := 0, dimensions := ⟨room.dimensions.width * 0.8, 0.6, 0.9⟩ },
      { id := "stove-" ++ room.id, name := "Stove", type := FurnitureType.appliance,
        position := ⟨room.dimensions.width * 0.3, 0, room.dimensions.length * 0.25⟩,
        rotation := 0, dimensions := ⟨0.6, 0.6, 0.9⟩ },
      { id := "fridge-" ++ room.id, name := "Refrigerator", type := FurnitureType.appliance,
        position := ⟨room.dimensions.width * 0.8, 0, room.dimensions.length * 0.1⟩,
        rotation := 0, dimensions := ⟨0.7, 0.7, 1.8⟩ },
      { id := "sink-" ++ room.id, name := "Kitchen Sink", type := FurnitureType.appliance,
        position := ⟨room.dimensions.width * 0.5, 0, room.dimensions.length * 0.25⟩,
        rotation := 0, dimensions := ⟨0.8, 0.5, 0.9⟩ },
      { id := "island-" ++ room.id, name := "Kitchen Island", type := FurnitureType.table,
        position := ⟨room.dimensions.width * 0.5, 0, room.dimensions.length * 0.6⟩,
        rotation := 0, dimensions := ⟨1.5, 1.0, 0.9⟩ } ]
  | RoomType.bathroom =>
    [ { id := "toilet-" ++ room.id, name := "Toilet", type := FurnitureType.appliance,
        position := ⟨room.dimensions.width * 0.2, 0, room.dimensions.length * 0.2⟩,
        rotation := 0, dimensions := ⟨0.4, 0.7, 0.8⟩ },
      { id := "sink-" ++ room.id, name := "Bathroom Sink", type := FurnitureType.appliance,
        position := ⟨room.dimensions.width * 0.7, 0, room.dimensions.length * 0.2⟩,
        rotation := 0, dimensions := ⟨0.6, 0.4, 0.8⟩ },
      { id := "shower-" ++ room.id, name := "Shower", type := FurnitureType.appliance,
        position := ⟨room.dimensions.width * 0.2, 0, room.dimensions.length * 0.7⟩,
        rotation := 0, dimensions := ⟨0.9, 0.9, 2.0⟩ },
      { id := "cabinet-" ++ room.id, name := "Bathroom Cabinet", type := FurnitureType.cabinet,
        position := ⟨room.dimensions.width * 0.7, 0, room.dimensions.length * 0.7⟩,
        rotation := 0, dimensions := ⟨0.6, 0.3, 1.8⟩ } ]
  | RoomType.dining =>
    [ { id := "dining-table-" ++ room.id, name := "Dining Table", type := FurnitureType.table,
        position := ⟨room.dimensions.width * 0.5, 0, room.dimensions.length * 0.5⟩,
        rotation := 0, dimensions := ⟨1.8, 1.2, 0.75⟩ },
      { id := "dining-chairs-" ++ room.id, name := "Dining Chairs", type := FurnitureType.chair,
        position := ⟨room.dimensions.width * 0.5, 0, room.dimensions.length * 0.3⟩,
        rotation := 0, dimensions := ⟨0.5, 0.5, 0.9⟩ } ]
  | RoomType.hallway => []

/-- `HouseGenerator.addFurniture` (lines 283–476).  The `locationType`
parameter is accepted, as in the source, but never read by the body. -/
def addFurniture (rooms : List Room) (_locationType : LocationType) : List Room :=
  rooms.map (fun room => { room with furniture := furnitureFor room })

/-- `HouseGenerator.generateTourWaypoints` (lines 481–521). -/
def generateTourWaypoints (rooms : List Room) (dimensions : Dims3) : List TourWaypoint :=
  let start : TourWaypoint :=
    { position := ⟨dimensions.width / 2, dimensions.height + 5, -10⟩,
      lookAt := ⟨dimensions.width / 2, dimensions.height / 2, dimensions.length / 2⟩,
      duration := 3, roomName := "Exterior View" }
  let interior : List TourWaypoint :=
    (rooms.filter (fun room => decide (room.type ≠ RoomType.hallway))).map (fun room =>
      { position := ⟨room.position.x + room.dimensions.width / 2,
                     room.dimensions.height / 2,
                     room.position.z + room.dimensions.length / 2⟩,
        lookAt := ⟨room.position.x + room.dimensions.width / 2,
                   room.dimensions.height / 2,
                   room.position.z + room.dimensions.length / 2⟩,
        duration := 2, roomName := room.name })
  let final : TourWaypoint :=
    { position := ⟨dimensions.width / 2, dimensions.height + 3, -8⟩,
      lookAt := ⟨dimensions.width / 2, dimensions.height / 2, dimensions.length / 2⟩,
      duration := 2, roomName := "Final View" }
  start :: (interior ++ [final])

/-- `HouseGenerator.generateHouse` (lines 102–129).  The source also
computes the tour waypoints inside this function but does not include them
in the returned layout; the unused binding is reproduced for fidelity. -/
def generateHouse (formData : HouseFormData) : HouseLayout :=
  let plotSize := parsePlotSize formData.plotSize
  let houseDimensions := calculateHouseDimensions plotSize formData
  let rooms := generateRooms formData houseDimensions
  let furnishedRooms := addFurniture rooms formData.locationType
  let _tourWaypoints := generateTourWaypoints furnishedRooms houseDimensions
  { width := houseDimensions.width, length := houseDimensions.length,
    height := houseDimensions.height,
    floors := if formData.houseType = HouseType.single then 1 else 2,
    rooms := furnishedRooms,
    style := if formData.locationType = LocationType.city then Style.modern
             else Style.traditional }

/-- The dimensions record with which the HTTP route calls
`generateTourWaypoints` on a generated layout (`{width: layout.width,
length: layout.length, height: layout.height}`). -/
def layoutDims (layout : HouseLayout) : Dims3 :=
  { width := layout.width, length := layout.length, height := layout.height }

end HouseGenerator

/-! ## Injectivity of the numeral printer used in room ids -/

/-- Decimal digit characters of a natural number, most significant first. -/
def digitsBase10 (n : ℕ) : List Char :=
  if _h : n < 10 then [Nat.digitChar n]
  else digitsBase10 (n / 10) ++ [Nat.digitChar (n % 10)]
termination_by n
decreasing_by exact Nat.div_lt_self (by omega) (by omega)

/-- Numeric value of a decimal digit character. -/
def decDigit (c : Char) : ℕ := c.toNat - 48

/-- Decode a digit string on top of an accumulator. -/
def decNum (a : ℕ) (l : List Char) : ℕ :=
  l.foldl (fun acc c => 10 * acc + decDigit c) a

lemma decDigit_digitChar {d : ℕ} (hd : d < 10) : decDigit (Nat.digitChar d) = d := by
  interval_cases d <;> rfl

lemma decNum_snoc (a : ℕ) (l : List Char) (c : Char) :
    decNum a (l ++ [c]) = 10 * decNum a l + decDigit c := by
  simp [decNum, List.foldl_append]

lemma decNum_digitsBase10 (n : ℕ) :
    ∀ a : ℕ, decNum a (digitsBase10 n) = a * 10 ^ (digitsBase10 n).length + n := by
  induction n using Nat.strong_induction_on with
  | _ n ih =>
    intro a
    by_cases h : n < 10
    · rw [digitsBase10, dif_pos h]
      simp [decNum, decDigit_digitChar h]
      omega
    · have hlt : n / 10 < n := Nat.div_lt_self (by omega) (by omega)
      rw [digitsBase10, dif_neg h, decNum_snoc, ih (n / 10) hlt a,
        decDigit_digitChar (Nat.mod_lt n (by omega)), List.length_append]
      have hmod : 10 * (n / 10) + n % 10 = n := by omega
      have hexp : 10 * (a * 10 ^ (digitsBase10 (n / 10)).length + n / 10) + n % 10 =
          a * 10 ^ ((digitsBase10 (n / 10)).length + [Nat.digitChar (n % 10)].length) +
            (10 * (n / 10) + n % 10) := by
        simp [pow_succ]
        ring
      rw [hexp, hmod]

lemma digitsBase10_injective : Function.Injective digitsBase10 := by
  intro m n h
  have hm := decNum_digitsBase10 m 0
  have hn := decNum_digitsBase10 n 0
  rw [h] at hm
  simp only [Nat.zero_mul] at hm hn
  omega

lemma toDigitsCore_eq_digitsBase10 (fuel : ℕ) : ∀ n : ℕ, n < fuel → ∀ ds : List Char,
    Nat.toDigitsCore 10 fuel n ds = digitsBase10 n ++ ds := by
  induction fuel with
  | zero => intro n hn; omega
  | succ f ih =>
    intro n hn ds
    simp only [Nat.toDigitsCore]
    by_cases h : n / 10 = 0
    · rw [if_pos h, digitsBase10, dif_pos (by omega : n < 10)]
      have hmod : n % 10 = n := by omega
      rw [hmod]
      rfl
    · have hf : n / 10 < f := by
        have := Nat.div_lt_self (n := n) (by omega) (by omega : 1 < 10)
        omega
      rw [if_neg h, ih (n / 10) hf]
      conv_rhs => rw [digitsBase10]
      rw [dif_neg (by omega : ¬ n < 10)]
      simp

lemma natRepr_injective : Function.Injective Nat.repr := by
  intro m n h
  have hm : Nat.repr m = (digitsBase10 m).asString := by
    show (Nat.toDigits 10 m).asString = _
    rw [Nat.toDigits, toDigitsCore_eq_digitsBase10 (m + 1) m (by omega) [],
      List.append_nil]
  have hn : Nat.repr n = (digitsBase10 n).asString := by
    show (Nat.toDigits 10 n).asString = _
    rw [Nat.toDigits, toDigitsCore_eq_digitsBase10 (n + 1) n (by omega) [],
      List.append_nil]
  rw [hm, hn] at h
  apply digitsBase10_injective
  simpa [List.asString] using congrArg String.data h

/-! ## String prefix tools for id disjointness -/

/-- The first three characters of a string, used to tell the id families of
the different room categories apart. -/
def tag3 (s : String) : List Char := s.data.take 3

lemma tag3_append (p x : String) (hp : 3 ≤ p.data.length) : tag3 (p ++ x) = tag3 p := by
  simp [tag3, String.data_append, List.take_append_of_le_length hp]

lemma stringAppend_right_injective (p : String) :
    Function.Injective fun s => p ++ s := by
  intro a b h
  simp only [String.ext_iff, String.data_append] at h ⊢
  exact List.append_cancel_left h

/-- `p ++ repr i` for the `n` indices `i, i+1, …, i+n-1`: the ids produced by
one room-placement loop. -/
def famIdsFrom (p : String) : ℕ → ℕ → List String
  | _, 0 => []
  | i, n + 1 => (p ++ Nat.repr i) :: famIdsFrom p (i + 1) n

lemma famIdsFrom_length (p : String) : ∀ (n i : ℕ), (famIdsFrom p i n).length = n := by
  intro n
  induction n with
  | zero => intro i; rfl
  | succ m ih => intro i; simp [famIdsFrom, ih]

lemma mem_famIdsFrom {p : String} :
    ∀ {n i : ℕ} {s : String}, s ∈ famIdsFrom p i n →
      ∃ j, i ≤ j ∧ j < i + n ∧ s = p ++ Nat.repr j := by
  intro n
  induction n with
  | zero => intro i s hs; simp [famIdsFrom] at hs
  | succ m ih =>
    intro i s hs
    simp only [famIdsFrom, List.mem_cons] at hs
    rcases hs with rfl | hs
    · exact ⟨i, le_refl i, by omega, rfl⟩
    · obtain ⟨j, h1, h2, rfl⟩ := ih hs
      exact ⟨j, by omega, by omega, rfl⟩

lemma famIdsFrom_nodup (p : String) : ∀ (n i : ℕ), (famIdsFrom p i n).Nodup := by
  intro n
  induction n with
  | zero => intro i; simp [famIdsFrom]
  | succ m ih =>
    intro i
    refine List.nodup_cons.mpr ⟨?_, ih (i + 1)⟩
    intro hmem
    obtain ⟨j, h1, _, heq⟩ := mem_famIdsFrom hmem
    have : i = j := natRepr_injective (stringAppend_right_injective p heq)
    omega

lemma tag3_famIdsFrom {p : String} (hp : 3 ≤ p.data.length) {n i : ℕ} {s : String}
    (hs : s ∈ famIdsFrom p i n) : tag3 s = tag3 p := by
  obtain ⟨j, _, _, rfl⟩ := mem_famIdsFrom hs
  exact tag3_append p _ hp

lemma disjoint_of_tag3 {L1 L2 : List String} {t1 t2 : List Char}
    (h1 : ∀ s ∈ L1, tag3 s = t1) (h2 : ∀ s ∈ L2, tag3 s = t2) (hne : t1 ≠ t2) :
    L1.Disjoint L2 := by
  intro s hs1 hs2
  exact hne ((h1 s hs1).symm.trans (h2 s hs2))

/-! ## Closed forms for the placement loops -/

namespace HouseGenerator

lemma kitchensLoop_fst_ids (rw rl z : ℚ) : ∀ (n i : ℕ) (x : ℚ),
    (kitchensLoop rw rl z i n x).1.map Room.id = famIdsFrom "kitchen-" i n := by
  intro n
  induction n with
  | zero => intro i x; simp [kitchensLoop, famIdsFrom]
  | succ m ih => intro i x; simp [kitchensLoop, famIdsFrom, ih]

lemma bedroomsLoop_fst_ids (rw rl w : ℚ) : ∀ (n i : ℕ) (x z : ℚ),
    (bedroomsLoop rw rl w i n x z).1.map Room.id = famIdsFrom "bedroom-" i n := by
  intro n
  induction n with
  | zero => intro i x z; simp [bedroomsLoop, famIdsFrom]
  | succ m ih => intro i x z; simp [bedroomsLoop, famIdsFrom, ih]

lemma bathroomsLoop_fst_ids (rw rl w : ℚ) : ∀ (n i : ℕ) (x z : ℚ),
    (bathroomsLoop rw rl w i n x z).1.map Room.id = famIdsFrom "bathroom-" i n := by
  intro n
  induction n with
  | zero => intro i x z; simp [bathroomsLoop, famIdsFrom]
  | succ m ih => intro i x z; simp [bathroomsLoop, famIdsFrom, ih]

lemma kitchensLoop_fst_types (rw rl z : ℚ) : ∀ (n i : ℕ) (x : ℚ),
    (kitchensLoop rw rl z i n x).1.map Room.type = List.replicate n RoomType.kitchen := by
  intro n
  induction n with
  | zero => intro i x; simp [kitchensLoop]
  | succ m ih => intro i x; simp [kitchensLoop, List.replicate_succ, ih]

lemma bedroomsLoop_fst_types (rw rl w : ℚ) : ∀ (n i : ℕ) (x z : ℚ),
    (bedroomsLoop rw rl w i n x z).1.map Room.type = List.replicate n RoomType.bedroom := by
  intro n
  induction n with
  | zero => intro i x z; simp [bedroomsLoop]
  | succ m ih => intro i x z; simp [bedroomsLoop, List.replicate_succ, ih]

lemma bathroomsLoop_fst_types (rw rl w : ℚ) : ∀ (n i : ℕ) (x z : ℚ),
    (bathroomsLoop rw rl w i n x z).1.map Room.type = List.replicate n RoomType.bathroom := by
  intro n
  induction n with
  | zero => intro i x z; simp [bathroomsLoop]
  | succ m ih => intro i x z; simp [bathroomsLoop, List.replicate_succ, ih]

lemma kitchensLoop_snd (rw rl z : ℚ) : ∀ (n i : ℕ) (x : ℚ),
    (kitchensLoop rw rl z i n x).2 = x + (n : ℚ) * rw := by
  intro n
  induction n with
  | zero => intro i x; simp [kitchensLoop]
  | succ m ih =>
    intro i x
    simp only [kitchensLoop, ih]
    push_cast
    ring

lemma kitchensLoop_fst_length (rw rl z : ℚ) (n i : ℕ) (x : ℚ) :
    (kitchensLoop rw rl z i n x).1.length = n := by
  have h := congrArg List.length (kitchensLoop_fst_ids rw rl z n i x)
  simpa [famIdsFrom_length] using h

/-- The dining-room condition of `generateRooms`: after the living room
(1.5 units) and the kitchens (1 unit each), one more unit still fits in the
first row. -/
def diningCond (formData : HouseFormData) (dimensions : Dims3) : Prop :=
  roomUnitW formData dimensions * 1.5 +
    (formData.kitchens : ℚ) * roomUnitW formData dimensions +
    roomUnitW formData dimensions ≤ dimensions.width

instance (formData : HouseFormData) (dimensions : Dims3) :
    Decidable (diningCond formData dimensions) := by
  unfold diningCond
  infer_instance

/-- The room-category sequence of a generated layout. -/
lemma generateRooms_types (formData : HouseFormData) (dimensions : Dims3) :
    (generateRooms formData dimensions).map Room.type =
      RoomType.living :: (List.replicate formData.kitchens RoomType.kitchen ++
        (if diningCond formData dimensions then [RoomType.dining] else []) ++
        List.replicate formData.bedrooms RoomType.bedroom ++
        List.replicate formData.bathrooms RoomType.bathroom ++ [RoomType.hallway]) := by
  simp only [generateRooms, List.map_cons, List.map_append, kitchensLoop_fst_types,
    bedroomsLoop_fst_types, bathroomsLoop_fst_types, kitchensLoop_snd, diningCond]
  congr 2
  split <;> simp

/-- The room-id sequence of a generated layout. -/
lemma generateRooms_ids (formData : HouseFormData) (dimensions : Dims3) :
    (generateRooms formData dimensions).map Room.id =
      "living-1" :: (famIdsFrom "kitchen-" 1 formData.kitchens ++
        (if diningCond formData dimensions then ["dining-1"] else []) ++
        famIdsFrom "bedroom-" 1 formData.bedrooms ++
        famIdsFrom "bathroom-" 1 formData.bathrooms ++ ["hallway-1"]) := by
  simp only [generateRooms, List.map_cons, List.map_append, kitchensLoop_fst_ids,
    bedroomsLoop_fst_ids, bathroomsLoop_fst_ids, kitchensLoop_snd, diningCond]
  congr 2
  split <;> simp

end HouseGenerator

/-! ## Sample inputs used by witnesses -/

namespace HouseGenerator

/-- The worked scenario of the spec: 20x30 plot, single story, 2 bedrooms,
1 bathroom, 1 kitchen, city. -/
def sampleForm : HouseFormData :=
  { plotSize := "20x30", houseType := HouseType.single, bedrooms := 2, bathrooms := 1,
    kitchens := 1, locationType := LocationType.city, extraNotes := "" }

/-- The dimensions the pipeline derives for `sampleForm`. -/
def sampleDims : Dims3 := calculateHouseDimensions (parsePlotSize "20x30") sampleForm

/-- A form whose first row leaves space for the dining room (no kitchen,
seven bedrooms, so the unit is a third of the width). -/
def sampleFormDining : HouseFormData :=
  { plotSize := "20x30", houseType := HouseType.double, bedrooms := 7, bathrooms := 1,
    kitchens := 0, locationType := LocationType.village, extraNotes := "" }

/-- The dimensions the pipeline derives for `sampleFormDining`. -/
def sampleDimsDining : Dims3 :=
  calculateHouseDimensions (parsePlotSize "20x30") sampleFormDining

/-- A one-room list whose single room is a hallway. -/
def sampleHallway : Room :=
  { id := "hallway-1", name := "Hallway", type := RoomType.hallway,
    position := ⟨0, 0, -2⟩, dimensions := ⟨16, 2, 3⟩, furniture := [] }

end HouseGenerator

/-! ## The claims -/

namespace HouseGenerator

/-- C2: for every parsed plot size and house type, `calculateHouseDimensions`
returns width `min (0.8 × plot width) 25` and length `min (0.8 × plot length) 35`
— hence never width > 25 or length > 35 — and height one `ROOM_HEIGHT` unit
for a single-story house, twice that unit for a double-story house. -/
theorem calculateHouseDimensions_caps (plot : PlotSize) (formData : HouseFormData) :
    (calculateHouseDimensions plot formData).width = min (0.8 * plot.width) 25 ∧
    (calculateHouseDimensions plot formData).length = min (0.8 * plot.length) 35 ∧
    (calculateHouseDimensions plot formData).width ≤ 25 ∧
    (calculateHouseDimensions plot formData).length ≤ 35 ∧
    (formData.houseType = HouseType.single →
      (calculateHouseDimensions plot formData).height = ROOM_HEIGHT) ∧
    (formData.houseType = HouseType.double →
      (calculateHouseDimensions plot formData).height = ROOM_HEIGHT * 2) := by
  refine ⟨?_, ?_, min_le_right _ _, min_le_right _ _, ?_, ?_⟩
  · show min (plot.width * 0.8) 25 = min (0.8 * plot.width) 25
    rw [mul_comm]
  · show min (plot.length * 0.8) 35 = min (0.8 * plot.length) 35
    rw [mul_comm]
  · intro h
    show (if formData.houseType = HouseType.single then ROOM_HEIGHT else ROOM_HEIGHT * 2) =
      ROOM_HEIGHT
    rw [if_pos h]
  · intro h
    show (if formData.houseType = HouseType.single then ROOM_HEIGHT else ROOM_HEIGHT * 2) =
      ROOM_HEIGHT * 2
    rw [if_neg (by rw [h]; exact fun hc => HouseType.noConfusion hc)]

/-- C9: the pipeline is deterministic — structurally identical form input
yields structurally identical layouts and tour waypoint lists. -/
theorem generateHouse_deterministic (fd fd' : HouseFormData) (h : fd = fd') :
    generateHouse fd = generateHouse fd' ∧
    generateTourWaypoints (generateHouse fd).rooms (layoutDims (generateHouse fd)) =
      generateTourWaypoints (generateHouse fd').rooms (layoutDims (generateHouse fd')) := by
  subst h
  exact ⟨rfl, rfl⟩

/-- Witness for C9 at the spec's worked scenario. -/
theorem generateHouse_deterministic_witness :
    generateHouse sampleForm = generateHouse sampleForm ∧
    generateTourWaypoints (generateHouse sampleForm).rooms
        (layoutDims (generateHouse sampleForm)) =
      generateTourWaypoints (generateHouse sampleForm).rooms
        (layoutDims (generateHouse sampleForm)) :=
  generateHouse_deterministic sampleForm sampleForm rfl

/-- C10: `addFurniture` ignores its location-style argument — the furnished
rooms are identical for 'city' and 'village' (and any two styles). -/
theorem addFurniture_locationType_irrelevant (rooms : List Room)
    (l1 l2 : LocationType) : addFurniture rooms l1 = addFurniture rooms l2 := rfl

/-- C5: `generateTourWaypoints` returns `2 + (number of non-hallway rooms)`
waypoints; the first is tagged "Exterior View", the last "Final View", and
the interior waypoints follow the non-hallway rooms in input order. -/
theorem generateTourWaypoints_shape (rooms : List Room) (dims : Dims3) :
    (generateTourWaypoints rooms dims).length =
      2 + (rooms.filter (fun room => decide (room.type ≠ RoomType.hallway))).length ∧
    ((generateTourWaypoints rooms dims).head?).map TourWaypoint.roomName =
      some "Exterior View" ∧
    ((generateTourWaypoints rooms dims).getLast?).map TourWaypoint.roomName =
      some "Final View" ∧
    (((generateTourWaypoints rooms dims).drop 1).dropLast).map TourWaypoint.roomName =
      (rooms.filter (fun room => decide (room.type ≠ RoomType.hallway))).map Room.name := by
  refine ⟨?_, ?_, ?_, ?_⟩
  · simp [generateTourWaypoints]
    omega
  · rfl
  · rw [generateTourWaypoints, ← List.cons_append, List.getLast?_concat]
    rfl
  · simp only [generateTourWaypoints, List.drop_succ_cons, List.drop_zero,
      List.dropLast_concat, List.map_map]
    rfl

/-- C6: each interior waypoint sits at its room's horizontal and vertical
center, looks at exactly that same point, and dwells 2 seconds; the opening
exterior waypoint dwells 3 seconds and the closing one 2 seconds. -/
theorem generateTourWaypoints_fields (rooms : List Room) (dims : Dims3) :
    (((generateTourWaypoints rooms dims).drop 1).dropLast =
      (rooms.filter (fun room => decide (room.type ≠ RoomType.hallway))).map
        (fun room =>
          { position := ⟨room.position.x + room.dimensions.width / 2,
                         room.dimensions.height / 2,
                         room.position.z + room.dimensions.length / 2⟩,
            lookAt := ⟨room.position.x + room.dimensions.width / 2,
                       room.dimensions.height / 2,
                       room.position.z + room.dimensions.length / 2⟩,
            duration := 2, roomName := room.name })) ∧
    (((generateTourWaypoints rooms dims).head?).map TourWaypoint.duration = some 3) ∧
    (((generateTourWaypoints rooms dims).getLast?).map TourWaypoint.duration = some 2) := by
  refine ⟨?_, rfl, ?_⟩
  · simp only [generateTourWaypoints, List.drop_succ_cons, List.drop_zero,
      List.dropLast_concat]
  · rw [generateTourWaypoints, ← List.cons_append, List.getLast?_concat]
    rfl

/-- C8: `addFurniture` keeps every field of every room except `furniture`
(id, name, category, position, dimensions unchanged, in place), and attaches
no furniture to hallway rooms (the only category the furniture switch does
not match). -/
theorem addFurniture_frame (rooms : List Room) (loc : LocationType) :
    (addFurniture rooms loc).length = rooms.length ∧
    ∀ i, ∀ h : i < rooms.length,
      (addFurniture rooms loc)[i]? =
        some { rooms.get ⟨i, h⟩ with furniture := furnitureFor (rooms.get ⟨i, h⟩) } ∧
      ((rooms.get ⟨i, h⟩).type = RoomType.hallway →
        furnitureFor (rooms.get ⟨i, h⟩) = []) := by
  constructor
  · simp [addFurniture]
  · intro i h
    constructor
    · simp only [addFurniture, List.getElem?_map, List.getElem?_eq_getElem h,
        List.get_eq_getElem]
      rfl
    · intro ht
      rw [List.get_eq_getElem] at ht
      simp [furnitureFor, ht]

end HouseGenerator

namespace HouseGenerator

/-- Nodup of the id list shape produced by `generateRooms`: the per-family
lists are nodup by injectivity of the numeral printer, and the families are
pairwise disjoint because their three-character prefixes differ. -/
lemma idsList_nodup (k b ba : ℕ) (D : List String) (hD : D = [] ∨ D = ["dining-1"]) :
    ("living-1" :: (famIdsFrom "kitchen-" 1 k ++ D ++ famIdsFrom "bedroom-" 1 b ++
      famIdsFrom "bathroom-" 1 ba ++ ["hallway-1"])).Nodup := by
  have tagK : ∀ s ∈ famIdsFrom "kitchen-" 1 k, tag3 s = tag3 "kitchen-" :=
    fun s hs => tag3_famIdsFrom (by decide) hs
  have tagB : ∀ s ∈ famIdsFrom "bedroom-" 1 b, tag3 s = tag3 "bedroom-" :=
    fun s hs => tag3_famIdsFrom (by decide) hs
  have tagBA : ∀ s ∈ famIdsFrom "bathroom-" 1 ba, tag3 s = tag3 "bathroom-" :=
    fun s hs => tag3_famIdsFrom (by decide) hs
  have tagD : ∀ s ∈ D, tag3 s = tag3 "dining-1" := by
    rcases hD with rfl | rfl
    · intro s hs
      exact absurd hs (List.not_mem_nil s)
    · intro s hs
      rw [List.mem_singleton] at hs
      subst hs
      rfl
  have tagH : ∀ s ∈ (["hallway-1"] : List String), tag3 s = tag3 "hallway-1" := by
    intro s hs
    rw [List.mem_singleton] at hs
    subst hs
    rfl
  have hDnodup : D.Nodup := by
    rcases hD with rfl | rfl <;> simp
  refine List.nodup_cons.mpr ⟨?_, ?_⟩
  · intro hmem
    simp only [List.mem_append, List.mem_singleton] at hmem
    rcases hmem with ((((h | h) | h) | h) | h)
    · exact absurd (tagK _ h) (by decide)
    · exact absurd (tagD _ h) (by decide)
    · exact absurd (tagB _ h) (by decide)
    · exact absurd (tagBA _ h) (by decide)
    · exact absurd h (by decide)
  · refine List.nodup_append.mpr ⟨?_, by simp, ?_⟩
    · refine List.nodup_append.mpr ⟨?_, famIdsFrom_nodup _ _ _, ?_⟩
      · refine List.nodup_append.mpr ⟨?_, famIdsFrom_nodup _ _ _, ?_⟩
        · refine List.nodup_append.mpr ⟨famIdsFrom_nodup _ _ _, hDnodup,
            disjoint_of_tag3 tagK tagD (by decide)⟩
        · rw [List.disjoint_append_left]
          exact ⟨disjoint_of_tag3 tagK tagB (by decide),
            disjoint_of_tag3 tagD tagB (by decide)⟩
      · rw [List.disjoint_append_left, List.disjoint_append_left]
        exact ⟨⟨disjoint_of_tag3 tagK tagBA (by decide),
          disjoint_of_tag3 tagD tagBA (by decide)⟩,
          disjoint_of_tag3 tagB tagBA (by decide)⟩
    · rw [List.disjoint_append_left, List.disjoint_append_left,
        List.disjoint_append_left]
      exact ⟨⟨⟨disjoint_of_tag3 tagK tagH (by decide),
        disjoint_of_tag3 tagD tagH (by decide)⟩,
        disjoint_of_tag3 tagB tagH (by decide)⟩,
        disjoint_of_tag3 tagBA tagH (by decide)⟩

/-- C3: for every form input (all room counts natural numbers, bedrooms = 0
included) the generator totally returns exactly 1 living room, then the
requested kitchens, then 0 or 1 dining room, then the requested bedrooms and
bathrooms, then 1 hallway, in that order; and the result is the same for
identical inputs. -/
theorem generateRooms_shape (fd fd' : HouseFormData) (dims dims' : Dims3)
    (h1 : fd = fd') (h2 : dims = dims') :
    ((if diningCond fd dims then [RoomType.dining] else []) = [] ∨
      (if diningCond fd dims then [RoomType.dining] else []) = [RoomType.dining]) ∧
    (generateRooms fd dims).map Room.type =
      [RoomType.living] ++ List.replicate fd.kitchens RoomType.kitchen ++
      (if diningCond fd dims then [RoomType.dining] else []) ++
      List.replicate fd.bedrooms RoomType.bedroom ++
      List.replicate fd.bathrooms RoomType.bathroom ++ [RoomType.hallway] ∧
    generateRooms fd dims = generateRooms fd' dims' := by
  subst h1
  subst h2
  refine ⟨by split <;> simp, ?_, rfl⟩
  rw [generateRooms_types]
  simp

/-- Witness for C3 at the spec's worked scenario: one kitchen, two bedrooms,
one bathroom, no dining room (the first row is full), one hallway. -/
theorem generateRooms_shape_witness :
    (generateRooms sampleForm sampleDims).map Room.type =
      [RoomType.living, RoomType.kitchen, RoomType.bedroom, RoomType.bedroom,
        RoomType.bathroom, RoomType.hallway] := by
  have h := (generateRooms_shape sampleForm sampleForm sampleDims sampleDims rfl rfl).2.1
  rw [h, if_neg (of_decide_eq_false (by with_unfolding_all rfl) :
    ¬ diningCond sampleForm sampleDims)]
  with_unfolding_all rfl

/-- C4: all room ids of a single generation are pairwise distinct, and
`addFurniture` preserves the id sequence. -/
theorem generateRooms_ids_nodup (fd : HouseFormData) (dims : Dims3)
    (loc : LocationType) :
    ((generateRooms fd dims).map Room.id).Nodup ∧
    (addFurniture (generateRooms fd dims) loc).map Room.id =
      (generateRooms fd dims).map Room.id := by
  constructor
  · rw [generateRooms_ids]
    exact idsList_nodup _ _ _ _ (by split <;> simp)
  · simp only [addFurniture, List.map_map]
    rfl

/-- C7: a dining room is generated exactly when, after the living room
(1.5 units) and the kitchens (1 unit each), one more unit still fits in the
first row (`diningCond`); and then it sits immediately after the kitchens,
at the row cursor, in row z = 0. -/
theorem generateRooms_dining (fd : HouseFormData) (dims : Dims3) :
    ((∃ r ∈ generateRooms fd dims, r.type = RoomType.dining) ↔ diningCond fd dims) ∧
    (diningCond fd dims →
      (generateRooms fd dims)[1 + fd.kitchens]? =
        some { id := "dining-1", name := "Dining Room", type := RoomType.dining,
               position := ⟨roomUnitW fd dims * 1.5 +
                 (fd.kitchens : ℚ) * roomUnitW fd dims, 0, 0⟩,
               dimensions := ⟨roomUnitW fd dims, roomUnitL fd dims, ROOM_HEIGHT⟩,
               furniture := [] }) := by
  constructor
  · constructor
    · rintro ⟨r, hr, ht⟩
      have hmem : RoomType.dining ∈ (generateRooms fd dims).map Room.type :=
        List.mem_map.mpr ⟨r, hr, ht⟩
      rw [generateRooms_types] at hmem
      by_cases hc : diningCond fd dims
      · exact hc
      · simp [hc] at hmem
    · intro hc
      have hmem : RoomType.dining ∈ (generateRooms fd dims).map Room.type := by
        rw [generateRooms_types]
        simp [hc]
      obtain ⟨r, hr, ht⟩ := List.mem_map.mp hmem
      exact ⟨r, hr, ht⟩
  · intro hc
    have hcond : roomUnitW fd dims * 1.5 + (fd.kitchens : ℚ) * roomUnitW fd dims +
        roomUnitW fd dims ≤ dims.width := hc
    have hK := kitchensLoop_fst_length (roomUnitW fd dims) (roomUnitL fd dims) 0
      fd.kitchens 1 (roomUnitW fd dims * 1.5)
    simp only [generateRooms, kitchensLoop_snd]
    rw [if_pos hcond, Nat.add_comm 1 fd.kitchens, List.getElem?_cons_succ]
    rw [List.getElem?_append, if_pos (by
      simp only [List.length_append, List.length_cons, List.length_nil, hK]
      omega)]
    rw [List.getElem?_append, if_pos (by
      simp only [List.length_append, List.length_cons, List.length_nil, hK]
      omega)]
    rw [List.getElem?_append, if_pos (by
      simp only [List.length_append, List.length_cons, List.length_nil, hK]
      omega)]
    rw [List.getElem?_append, if_neg (by rw [hK]; omega), hK]
    simp

end HouseGenerator

namespace HouseGenerator

/-- C1 (amended): `parsePlotSize` maps "20x30" to `{20, 30}` and "25" to
`{25, 25}`; an input with no 'x' and no parseable numeric prefix (empty
string, "garbage") falls back to the default `{20, 30}` as a whole; but an
input containing 'x' falls back componentwise — each of the first two
'x'-separated components that parses to `NaN` (or to the falsy `0`) is
replaced by its own default (20 for width, 30 for length) while a parseable
component survives, so a malformed split need not return the full default. -/
theorem parsePlotSize_spec (s : String) :
    parsePlotSize "20x30" = ⟨20, 30⟩ ∧
    parsePlotSize "25" = ⟨25, 25⟩ ∧
    parsePlotSize "" = ⟨20, 30⟩ ∧
    parsePlotSize "garbage" = ⟨20, 30⟩ ∧
    ((normalizeSize s).contains 'x' = false → jsParseFloat (normalizeSize s) = none →
      parsePlotSize s = ⟨20, 30⟩) ∧
    ((normalizeSize s).contains 'x' = true →
      ((((splitOnX (normalizeSize s)).map jsParseFloat)[0]? = some none →
        (parsePlotSize s).width = 20) ∧
      (((splitOnX (normalizeSize s)).map jsParseFloat)[0]? = some (some 0) →
        (parsePlotSize s).width = 20) ∧
      (∀ q : ℚ, ((splitOnX (normalizeSize s)).map jsParseFloat)[0]? = some (some q) →
        q ≠ 0 → (parsePlotSize s).width = q) ∧
      ((((splitOnX (normalizeSize s)).map jsParseFloat)[1]? = some none →
        (parsePlotSize s).length = 30) ∧
      (((splitOnX (normalizeSize s)).map jsParseFloat)[1]? = some (some 0) →
        (parsePlotSize s).length = 30) ∧
      (∀ q : ℚ, ((splitOnX (normalizeSize s)).map jsParseFloat)[1]? = some (some q) →
        q ≠ 0 → (parsePlotSize s).length = q)))) := by
  refine ⟨by with_unfolding_all rfl, by with_unfolding_all rfl,
    by with_unfolding_all rfl, by with_unfolding_all rfl, ?_, ?_⟩
  · intro h1 h2
    simp only [parsePlotSize]
    rw [h1]
    simp only [Bool.false_eq_true, if_false]
    rw [h2]
  · intro hx
    have hbody : parsePlotSize s =
        { width := jsOrDefault (((splitOnX (normalizeSize s)).map jsParseFloat))[0]? 20,
          length := jsOrDefault (((splitOnX (normalizeSize s)).map jsParseFloat))[1]? 30 } := by
      simp only [parsePlotSize]
      rw [if_pos hx]
    refine ⟨?_, ?_, ?_, ?_, ?_, ?_⟩
    · intro hp
      rw [hbody]
      simp [hp, jsOrDefault]
    · intro hp
      rw [hbody]
      simp [hp, jsOrDefault]
    · intro q hp hq
      rw [hbody]
      simp [hp, jsOrDefault, hq]
    · intro hp
      rw [hbody]
      simp [hp, jsOrDefault]
    · intro hp
      rw [hbody]
      simp [hp, jsOrDefault]
    · intro q hp hq
      rw [hbody]
      simp [hp, jsOrDefault, hq]

/-- C1 counterexample: the malformed 'x'-split "5x" does not return the
fixed default — its parsed width 5 survives and only the missing length
falls back, giving `{5, 30}` rather than `{20, 30}`. -/
theorem parsePlotSize_malformed_counterexample :
    parsePlotSize "5x" = ⟨5, 30⟩ ∧ parsePlotSize "5x" ≠ ⟨20, 30⟩ := by
  refine ⟨by with_unfolding_all rfl, ?_⟩
  rw [show parsePlotSize "5x" = (⟨5, 30⟩ : PlotSize) from by with_unfolding_all rfl]
  intro h
  rw [PlotSize.mk.injEq] at h
  exact absurd h.1 (by norm_num)

end HouseGenerator
